import Mathlib

/- Verification development for the rekor `upload` command
   (cmd/cli/app/upload.go).

   The pipeline is shallowly embedded:
   * bytes are `List Nat` (each entry a byte value),
   * `hashGenerator` mirrors the Go function of the same name, with the
     gzip layer modelled by an executable gzip codec (header check,
     DEFLATE stored blocks, CRC-32 / length trailer) matching the
     observable behaviour of `compress/gzip`: a header-parse failure
     leaves a nil reader (the subsequent `io.Copy` panics, aborting the
     run), while a mid-body failure is only logged and the digest is
     computed over whatever prefix was decompressed,
   * SHA-256 is implemented in full (crypto/sha256),
   * file handles are `FileSrc` values carrying content and read
     position; `isArmorProtected` probes from the current position and
     seeks back to the start, and the openpgp key-ring / detached
     signature readers consume their source to EOF,
   * the openpgp parsing and signature-checking functions themselves are
     oracle parameters of the run model (they live outside this
     repository), as are `pkg.FormatSignature` / `pkg.FormatPubKey`
     (repository code not part of the analysed source),
   * `runUpload` replays `uploadCmd.Run` step by step, recording the
     observable events (fetch, hash, entry construction, HTTP POST) and
     the exit kind. -/

set_option maxRecDepth 100000

/-! ## SHA-256 (crypto/sha256) -/

def M32 : Nat := 4294967296

def rotr (n x : Nat) : Nat := x / 2 ^ n + x % 2 ^ n * 2 ^ (32 - n)

def shr (n x : Nat) : Nat := x / 2 ^ n

def not32 (x : Nat) : Nat := Nat.xor x (M32 - 1)

def xor3 (a b c : Nat) : Nat := Nat.xor (Nat.xor a b) c

def ssig0 (x : Nat) : Nat := xor3 (rotr 7 x) (rotr 18 x) (shr 3 x)

def ssig1 (x : Nat) : Nat := xor3 (rotr 17 x) (rotr 19 x) (shr 10 x)

def bsig0 (x : Nat) : Nat := xor3 (rotr 2 x) (rotr 13 x) (rotr 22 x)

def bsig1 (x : Nat) : Nat := xor3 (rotr 6 x) (rotr 11 x) (rotr 25 x)

def chFun (x y z : Nat) : Nat := Nat.xor (Nat.land x y) (Nat.land (not32 x) z)

def majFun (x y z : Nat) : Nat :=
  Nat.xor (Nat.xor (Nat.land x y) (Nat.land x z)) (Nat.land y z)

def sha256K : List Nat :=
  [1116352408, 1899447441, 3049323471, 3921009573,
   961987163, 1508970993, 2453635748, 2870763221,
   3624381080, 310598401, 607225278, 1426881987,
   1925078388, 2162078206, 2614888103, 3248222580,
   3835390401, 4022224774, 264347078, 604807628,
   770255983, 1249150122, 1555081692, 1996064986,
   2554220882, 2821834349, 2952996808, 3210313671,
   3336571891, 3584528711, 113926993, 338241895,
   666307205, 773529912, 1294757372, 1396182291,
   1695183700, 1986661051, 2177026350, 2456956037,
   2730485921, 2820302411, 3259730800, 3345764771,
   3516065817, 3600352804, 4094571909, 275423344,
   430227734, 506948616, 659060556, 883997877,
   958139571, 1322822218, 1537002063, 1747873779,
   1955562222, 2024104815, 2227730452, 2361852424,
   2428436474, 2756734187, 3204031479, 3329325298]

structure Hash8 where
  a : Nat
  b : Nat
  c : Nat
  d : Nat
  e : Nat
  f : Nat
  g : Nat
  h : Nat
  deriving Repr, DecidableEq

def sha256H0 : Hash8 :=
  ⟨1779033703, 3144134277, 1013904242, 2773480762,
   1359893119, 2600822924, 528734635, 1541459225⟩

/-- Big-endian 8-byte encoding of a 64-bit length. -/
def be64 (n : Nat) : List Nat :=
  [n / 2 ^ 56 % 256, n / 2 ^ 48 % 256, n / 2 ^ 40 % 256, n / 2 ^ 32 % 256,
   n / 2 ^ 24 % 256, n / 2 ^ 16 % 256, n / 2 ^ 8 % 256, n % 256]

/-- Big-endian 4-byte encoding of a 32-bit word. -/
def be4 (w : Nat) : List Nat :=
  [w / 2 ^ 24 % 256, w / 2 ^ 16 % 256, w / 2 ^ 8 % 256, w % 256]

/-- SHA-256 padding: 0x80, zeros to 56 mod 64, then the bit length. -/
def padMsg (msg : List Nat) : List Nat :=
  msg ++ 128 :: (List.replicate ((64 - (msg.length + 9) % 64) % 64) 0
    ++ be64 (msg.length * 8))

/-- Split into 64-byte blocks (the fuel argument bounds the recursion). -/
def toBlocks : Nat → List Nat → List (List Nat)
  | 0, _ => []
  | _, [] => []
  | fuel + 1, bs => bs.take 64 :: toBlocks fuel (bs.drop 64)

/-- Big-endian 32-bit words of a block. -/
def wordsOf : List Nat → List Nat
  | a :: b :: c :: d :: rest =>
      (a * 2 ^ 24 + b * 2 ^ 16 + c * 2 ^ 8 + d) :: wordsOf rest
  | _ => []

/-- Message schedule: extend 16 words to 64. -/
def schedule (w16 : List Nat) : List Nat :=
  (List.range 48).foldl
    (fun ws i =>
      ws ++ [(ssig1 (ws.getD (i + 14) 0) + ws.getD (i + 9) 0
        + ssig0 (ws.getD (i + 1) 0) + ws.getD i 0) % M32])
    w16

/-- One SHA-256 compression round over a 64-byte block. -/
def sha256Compress (h0 : Hash8) (block : List Nat) : Hash8 :=
  let w := schedule (wordsOf block)
  let st := (List.range 64).foldl
    (fun s t =>
      let t1 := (s.h + bsig1 s.e + chFun s.e s.f s.g
        + sha256K.getD t 0 + w.getD t 0) % M32
      let t2 := (bsig0 s.a + majFun s.a s.b s.c) % M32
      ⟨(t1 + t2) % M32, s.a, s.b, s.c, (s.d + t1) % M32, s.e, s.f, s.g⟩)
    h0
  ⟨(h0.a + st.a) % M32, (h0.b + st.b) % M32, (h0.c + st.c) % M32,
   (h0.d + st.d) % M32, (h0.e + st.e) % M32, (h0.f + st.f) % M32,
   (h0.g + st.g) % M32, (h0.h + st.h) % M32⟩

/-- SHA-256 digest of a byte sequence, as 32 bytes. -/
def sha256Bytes (msg : List Nat) : List Nat :=
  let p := padMsg msg
  let hf := (toBlocks p.length p).foldl sha256Compress sha256H0
  be4 hf.a ++ be4 hf.b ++ be4 hf.c ++ be4 hf.d
    ++ be4 hf.e ++ be4 hf.f ++ be4 hf.g ++ be4 hf.h

/-! ## Lowercase hex encoding (encoding/hex) -/

def hexChars : List Char := "0123456789abcdef".data

def hexDigit (n : Nat) : Char := hexChars.getD n '0'

def hexOfBytes : List Nat → List Char
  | [] => []
  | b :: rest => hexDigit (b / 16) :: hexDigit (b % 16) :: hexOfBytes rest

/-- `hex.EncodeToString` of the SHA-256 digest. -/
def sha256Hex (msg : List Nat) : String := ⟨hexOfBytes (sha256Bytes msg)⟩

/-! ## gzip codec model (compress/gzip, DEFLATE stored blocks)

The decoder mirrors the observable behaviour of `gzip.NewReader`
followed by `io.Copy`: `gzipNewReader` parses the 10-byte header
(magic `1f 8b`, method 8; flag-free headers, as produced by the
encoder) and fails — leaving a nil reader — on anything else;
`gzipReadAll` decodes DEFLATE stored blocks and checks the CRC-32 /
length trailer, returning the decompressed prefix obtained so far
together with a success flag (on failure `io.Copy` has still written
that prefix into the hasher). -/

/-- CRC-32 (IEEE), one byte step. -/
def crc32Byte (c b : Nat) : Nat :=
  let s := fun x => if x % 2 = 1 then Nat.xor (x / 2) 0xedb88320 else x / 2
  s (s (s (s (s (s (s (s (Nat.xor c b))))))))

def crc32 (bs : List Nat) : Nat :=
  Nat.xor (bs.foldl crc32Byte 0xffffffff) 0xffffffff

/-- Little-endian 4-byte encoding. -/
def le32 (n : Nat) : List Nat :=
  [n % 256, n / 2 ^ 8 % 256, n / 2 ^ 16 % 256, n / 2 ^ 24 % 256]

/-- DEFLATE stored-block encoding (BTYPE=00), chunks of at most 65535. -/
def encodeBlocks (b : List Nat) : List Nat :=
  if h : b.length ≤ 65535 then
    1 :: b.length % 256 :: b.length / 256
      :: (255 - b.length % 256) :: (255 - b.length / 256) :: b
  else
    0 :: 255 :: 255 :: 0 :: 0 :: (b.take 65535 ++ encodeBlocks (b.drop 65535))
  termination_by b.length
  decreasing_by
    simp only [List.length_drop]
    omega

/-- Decode DEFLATE stored blocks. Returns the bytes decoded so far and,
when every block decoded cleanly, the remainder after the final block;
`none` marks a corrupt or truncated stream (the kept prefix is what
`io.Copy` saw before the error). -/
def decodeBlocksGo : Nat → List Nat → List Nat × Option (List Nat)
  | 0, _ => ([], none)
  | fuel + 1, t :: l0 :: l1 :: n0 :: n1 :: rest2 =>
    if t = 1 ∨ t = 0 then
      if n0 = 255 - l0 ∧ n1 = 255 - l1 then
        if l0 + 256 * l1 ≤ rest2.length then
          if t = 1 then
            (rest2.take (l0 + 256 * l1), some (rest2.drop (l0 + 256 * l1)))
          else
            let r := decodeBlocksGo fuel (rest2.drop (l0 + 256 * l1))
            (rest2.take (l0 + 256 * l1) ++ r.1, r.2)
        else (rest2, none)
      else ([], none)
    else ([], none)
  | _ + 1, _ => ([], none)

def decodeBlocks (bs : List Nat) : List Nat × Option (List Nat) :=
  decodeBlocksGo (bs.length + 1) bs

/-- gzip stream produced by the model encoder: flag-free header,
stored blocks, CRC-32 and length trailer. -/
def gzipCompress (b : List Nat) : List Nat :=
  31 :: 139 :: 8 :: 0 :: 0 :: 0 :: 0 :: 0 :: 0 :: 255
    :: (encodeBlocks b ++ le32 (crc32 b) ++ le32 (b.length % M32))

/-- `gzip.NewReader`: parse the header, yield the body on success. -/
def gzipNewReader : List Nat → Option (List Nat)
  | 31 :: 139 :: 8 :: 0 :: _ :: _ :: _ :: _ :: _ :: _ :: body => some body
  | _ => none

/-- Read the whole gzip body: decoded bytes plus a success flag
(trailer must match and nothing may follow it). -/
def gzipReadAll (body : List Nat) : List Nat × Bool :=
  let r := decodeBlocks body
  match r.2 with
  | none => (r.1, false)
  | some rem => (r.1, rem == le32 (crc32 r.1) ++ le32 (r.1.length % M32))

/-! ## hashGenerator (upload.go) -/

/-- `strings.HasSuffix`. -/
def strHasSuffix (s t : String) : Bool := t.data.isSuffixOf s.data

/-- Embedding of `hashGenerator`: SHA-256 of the input, transparently
gunzipping first when the artifact name ends in `.gz`.  A gzip
header-parse failure leaves `gz` nil and the following
`io.Copy(hasher, gz)` panics, so the run aborts with no digest
(`none`); a failure while reading the body is only logged and the
digest of the partial output is returned. -/
def hashGenerator (artifact : String) (fileObject : List Nat) : Option String :=
  if strHasSuffix artifact ".gz" then
    match gzipNewReader fileObject with
    | none => none
    | some body => some (sha256Hex (gzipReadAll body).1)
  else some (sha256Hex fileObject)

/-! ## Armor classification (isArmorProtected, x/crypto armor)

`armor.Decode` scans its input line by line for a line beginning with
the marker `"-----BEGIN "` and succeeds once such an armor header is
found (the block body is read lazily).  `armorScan` performs exactly
that scan on the bytes from the current read position. -/

def armorBeginMarker : List Nat :=
  [45, 45, 45, 45, 45, 66, 69, 71, 73, 78, 32]

/-- Bytes after the first newline (byte 10), if any. -/
def dropLine : List Nat → Option (List Nat)
  | [] => none
  | 10 :: r => some r
  | _ :: r => dropLine r

/-- Scan each line start for the armor begin marker (fuelled). -/
def armorScanGo : Nat → List Nat → Bool
  | 0, _ => false
  | fuel + 1, bs =>
    (bs.take 11 == armorBeginMarker) ||
      match dropLine bs with
      | none => false
      | some r => armorScanGo fuel r

/-- Does some line of `bs` begin with `"-----BEGIN "`?  This is the
success condition of `armor.Decode` on `bs`. -/
def armorScan (bs : List Nat) : Bool := armorScanGo (bs.length + 1) bs

/-- ASCII bytes of a string. -/
def strBytes (s : String) : List Nat := s.data.map Char.toNat

/-- Base64 alphabet, as ASCII codes. -/
def b64Char (n : Nat) : Nat :=
  (strBytes "ABCDEFGHIJKLMNOPQRSTUVWXYZabcdefghijklmnopqrstuvwxyz0123456789+/").getD n 65

/-- Base64 encoding with `=` padding. -/
def b64 : List Nat → List Nat
  | [] => []
  | [a] => [b64Char (a / 4), b64Char (a % 4 * 16), 61, 61]
  | [a, b] => [b64Char (a / 4), b64Char (a % 4 * 16 + b / 16), b64Char (b % 16 * 4), 61]
  | a :: b :: c :: rest =>
    b64Char (a / 4) :: b64Char (a % 4 * 16 + b / 16)
      :: b64Char (b % 16 * 4 + c / 64) :: b64Char (c % 64) :: b64 rest

/-- The line `"-----BEGIN PGP SIGNATURE-----"`. -/
def armorHeaderLine : List Nat :=
  [45, 45, 45, 45, 45, 66, 69, 71, 73, 78, 32,
   80, 71, 80, 32, 83, 73, 71, 78, 65, 84, 85, 82, 69,
   45, 45, 45, 45, 45]

/-- ASCII-armored encoding of a payload: begin line, blank line,
base64 body, end line. -/
def armorEncode (x : List Nat) : List Nat :=
  armorHeaderLine ++ 10 :: 10 ::
    (b64 x ++ 10 :: strBytes "-----END PGP SIGNATURE-----" ++ [10])

/-! ## File sources and the classification probe -/

/-- An opened file: its content and the current read position. -/
structure FileSrc where
  content : List Nat
  pos : Nat
  deriving Repr, DecidableEq

/-- A reader that has consumed its source (openpgp key-ring and
detached-signature reads drain the underlying file). -/
def FileSrc.consumed (f : FileSrc) : FileSrc := ⟨f.content, f.content.length⟩

/-- Embedding of `isArmorProtected`: attempt an armor decode from the
current read position, then seek back to the start of the file
(`f.Seek(0, io.SeekStart)`). -/
def isArmorProtected (f : FileSrc) : Bool × FileSrc :=
  (armorScan (f.content.drop f.pos), ⟨f.content, 0⟩)

/-! ## The upload pipeline (uploadCmd.Run)

The run is replayed over the inputs (artifact URL, signature file
content, public-key file content) and a set of oracles for the
operations done by code outside this file's scope: the network, the
openpgp library (key-ring parsing and detached-signature checking,
polymorphic in the key-ring type `κ`), and `pkg.FormatSignature` /
`pkg.FormatPubKey`.

Modelled from the spec: `pkg.FormatSignature` and `pkg.FormatPubKey`
are repository code outside the analysed source; per the spec they
pre-validate the GPG file formatting and their failure is fatal
(`log.Fatal`) before anything is downloaded.  They are carried as
oracle results. -/

/-- The two mutually exclusive entry shapes (`RekorEntry` with binary
signature/key fields, `RekorArmorEntry` with text fields). -/
inductive RekorJson where
  | raw (url sha : String) (signature publicKey : List Nat)
  | armored (url sha : String) (signature publicKey : String)
  deriving Repr, DecidableEq

inductive FetchResult where
  | transportError
  | response (status : Nat) (body : List Nat)
  deriving Repr, DecidableEq

inductive SubmitResult where
  | timedOut
  | netError
  | response (wellFormed : Bool)
  deriving Repr, DecidableEq

structure Config where
  server : String
  artifactURL : String
  sigBytes : List Nat
  pubBytes : List Nat
  deriving Repr, DecidableEq

structure Oracles (κ : Type) where
  formatSignature : Except String String
  formatPubKey : Except String String
  fetch : FetchResult
  readKeyRing : Bool → List Nat → Except String κ
  nilKeyRing : κ
  checkDetached : Bool → κ → List Nat → List Nat → Except String Unit
  submit : RekorJson → SubmitResult

/-- Observable events of a run. -/
inductive Event where
  | fetched (url : String)
  | hashed (name : String) (bytes : List Nat)
  | built (entry : RekorJson)
  | posted (url : String) (body : RekorJson) (timeoutSec : Nat)
  deriving Repr, DecidableEq

def Event.isHashed : Event → Bool
  | .hashed _ _ => true
  | _ => false

def Event.isBuilt : Event → Bool
  | .built _ => true
  | _ => false

def Event.isPosted : Event → Bool
  | .posted _ _ _ => true
  | _ => false

def Event.isBuiltArmored : Event → Bool
  | .built (.armored _ _ _ _) => true
  | _ => false

def Event.isBuiltRaw : Event → Bool
  | .built (.raw _ _ _ _) => true
  | _ => false

/-- How the process run ended: `log.Fatal` (exit 1), `os.Exit(1)`, a
runtime panic (exit 2), or normal completion (exit 0). -/
inductive ExitKind where
  | fatalLog
  | exitOne
  | panicked
  | success
  deriving Repr, DecidableEq

structure RunResult where
  events : List Event
  exit : ExitKind
  deriving Repr, DecidableEq

/-- Load-time classification of the signature source (the first
`isArmorProtected(sigkeyRingReader)`, read position 0). -/
def sigClassOf (cfg : Config) : Bool := (isArmorProtected ⟨cfg.sigBytes, 0⟩).1

/-- Load-time classification of the public-key source. -/
def pubClassOf (cfg : Config) : Bool := (isArmorProtected ⟨cfg.pubBytes, 0⟩).1

/-- The key ring in scope after the key-ring read: on a read error the
run only logs and continues with the zero-value (`nil`) key ring. -/
def keyRingOf {κ : Type} (cfg : Config) (o : Oracles κ) : κ :=
  match o.readKeyRing (pubClassOf cfg) cfg.pubBytes with
  | .ok kr => kr
  | .error _ => o.nilKeyRing

/-- Step-by-step embedding of `uploadCmd.Run`:
1. `pkg.FormatSignature` / `pkg.FormatPubKey`, fatal on error;
2. `http.Get` of the artifact: a transport error is logged and the
   deferred `resp.Body.Close()` then dereferences a nil response
   (panic); the HTTP status is never inspected;
3. `hashGenerator` over the response body (panic when the gzip reader
   is nil);
4. key-ring load after probing the public-key file, which the read
   then consumes; errors only logged;
5. detached-signature check after probing the signature file, which
   the check then consumes; on error `os.Exit(1)`;
6. entry construction, re-probing both (now consumed) readers to pick
   the shape, re-reading both files from disk for the raw shape;
7. a single POST of the marshalled entry to `<server>/api/v1/add`
   under a 180-second context, fatal on timeout, transport error, or a
   malformed response body. -/
def runUpload {κ : Type} (cfg : Config) (o : Oracles κ) : RunResult :=
  match o.formatSignature with
  | .error _ => ⟨[], .fatalLog⟩
  | .ok sig =>
  match o.formatPubKey with
  | .error _ => ⟨[], .fatalLog⟩
  | .ok pubKeyStr =>
  match o.fetch with
  | .transportError => ⟨[.fetched cfg.artifactURL], .panicked⟩
  | .response _status body =>
    let ev0 : List Event :=
      [.fetched cfg.artifactURL, .hashed cfg.artifactURL body]
    match hashGenerator cfg.artifactURL body with
    | none => ⟨ev0, .panicked⟩
    | some generatedSha =>
      let pubF := (isArmorProtected ⟨cfg.pubBytes, 0⟩).2.consumed
      let keyRing := keyRingOf cfg o
      let sigF := (isArmorProtected ⟨cfg.sigBytes, 0⟩).2.consumed
      match o.checkDetached (sigClassOf cfg) keyRing body cfg.sigBytes with
      | .error _ => ⟨ev0, .exitOne⟩
      | .ok _ =>
        let entry :=
          if (isArmorProtected sigF).1 then
            RekorJson.armored cfg.artifactURL generatedSha sig pubKeyStr
          else if (isArmorProtected pubF).1 then
            RekorJson.armored cfg.artifactURL generatedSha sig pubKeyStr
          else
            RekorJson.raw cfg.artifactURL generatedSha cfg.sigBytes cfg.pubBytes
        let ev1 := ev0 ++
          [.built entry, .posted (cfg.server ++ "/api/v1/add") entry 180]
        match o.submit entry with
        | .timedOut => ⟨ev1, .fatalLog⟩
        | .netError => ⟨ev1, .fatalLog⟩
        | .response ok => if ok then ⟨ev1, .success⟩ else ⟨ev1, .fatalLog⟩


/-- A string of lowercase hexadecimal characters. -/
def isLowerHexStr (s : String) : Bool := s.data.all fun c => hexChars.contains c

def submitExit : SubmitResult → ExitKind
  | .timedOut => .fatalLog
  | .netError => .fatalLog
  | .response ok => if ok then .success else .fatalLog

def notBuiltOrPosted (e : Event) : Bool := !(e.isBuilt || e.isPosted)

def notBuiltArmored (e : Event) : Bool := !e.isBuiltArmored

/-- Sample run inputs: binary signature and key material. -/
def cfgPlain : Config := ⟨"http://rekor", "http://e/a", [1, 2], [3, 4]⟩

/-- Sample run inputs: armored signature, binary key material. -/
def cfgMixed : Config := ⟨"http://rekor", "http://e/a", armorEncode [1, 2, 3], [3, 4]⟩

/-- Oracles for a fully successful run. -/
def oOk : Oracles Unit :=
  ⟨.ok "SIGTEXT", .ok "PUBTEXT", .response 200 [104, 105],
   fun _ _ => .ok (), (), fun _ _ _ _ => .ok (), fun _ => .response true⟩

def oVerifyFail : Oracles Unit :=
  { oOk with checkDetached := fun _ _ _ _ => .error "bad" }

def o500 : Oracles Unit := { oOk with fetch := .response 500 [7, 7] }

def oTransport : Oracles Unit := { oOk with fetch := .transportError }

def oTimeout : Oracles Unit := { oOk with submit := fun _ => .timedOut }

/-! ## Supporting lemmas -/

example : sha256Hex [104, 101, 108, 108, 111, 10]
    = "5891b5b522d5df086d0ff0b110fbd9d21bb4fc7163af34d08286a2e846f6be03" := by
  decide

example : sha256Hex []
    = "e3b0c44298fc1c149afbf4c8996fb92427ae41e4649b934ca495991b7852b855" := by
  decide

example : hashGenerator "a" [104, 101, 108, 108, 111, 10]
    = some "5891b5b522d5df086d0ff0b110fbd9d21bb4fc7163af34d08286a2e846f6be03" := by
  decide

example :
    hashGenerator "a.gz" [31, 139, 8, 0, 0, 0, 0, 0, 0, 255]
    = some "e3b0c44298fc1c149afbf4c8996fb92427ae41e4649b934ca495991b7852b855" := by
  decide

example : hashGenerator "a.gz" [1, 2, 3] = none := by decide

example : strBytes "-----BEGIN " = armorBeginMarker := by decide

example : armorHeaderLine = strBytes "-----BEGIN PGP SIGNATURE-----" := by decide


theorem encodeBlocks_length (b : List Nat) : b.length ≤ (encodeBlocks b).length := by
  induction b using encodeBlocks.induct with
  | case1 b h =>
    rw [encodeBlocks, dif_pos h]
    simp only [List.length_cons]
    omega
  | case2 b h ih =>
    rw [encodeBlocks, dif_neg h]
    simp only [List.length_cons, List.length_append, List.length_take,
      List.length_drop] at *
    omega

theorem decodeBlocksGo_encodeBlocks (b : List Nat) :
    ∀ (suffix : List Nat) (fuel : Nat), b.length + 1 ≤ fuel →
      decodeBlocksGo fuel (encodeBlocks b ++ suffix) = (b, some suffix) := by
  induction b using encodeBlocks.induct with
  | case1 b h =>
    intro suffix fuel hf
    obtain ⟨f, rfl⟩ : ∃ f, fuel = f + 1 := ⟨fuel - 1, by omega⟩
    rw [encodeBlocks, dif_pos h]
    simp only [List.cons_append]
    rw [decodeBlocksGo]
    rw [if_pos (Or.inl rfl), if_pos ⟨rfl, rfl⟩]
    have hlen : b.length % 256 + 256 * (b.length / 256) = b.length :=
      Nat.mod_add_div b.length 256
    rw [if_pos (by rw [hlen, List.length_append]; omega)]
    rw [if_pos rfl, hlen]
    rw [List.take_left, List.drop_left]
  | case2 b h ih =>
    intro suffix fuel hf
    obtain ⟨f, rfl⟩ : ∃ f, fuel = f + 1 := ⟨fuel - 1, by omega⟩
    rw [encodeBlocks, dif_neg h]
    simp only [List.cons_append, List.append_assoc]
    rw [decodeBlocksGo]
    rw [if_pos (Or.inr rfl), if_pos (by omega), if_pos ?hle, if_neg (by omega)]
    case hle =>
      simp only [List.length_append, List.length_take]
      omega
    have htl : (b.take 65535).length = 65535 := by
      simp only [List.length_take]
      omega
    rw [List.drop_left' htl, List.take_left' htl]
    rw [ih suffix f (by simp only [List.length_drop]; omega)]
    simp [List.take_append_drop]

theorem decodeBlocks_encodeBlocks (b suffix : List Nat) :
    decodeBlocks (encodeBlocks b ++ suffix) = (b, some suffix) := by
  apply decodeBlocksGo_encodeBlocks
  have := encodeBlocks_length b
  simp only [List.length_append]
  omega

theorem gzipReadAll_compress (b : List Nat) :
    gzipReadAll (encodeBlocks b ++ le32 (crc32 b) ++ le32 (b.length % M32))
      = (b, true) := by
  rw [gzipReadAll, List.append_assoc,
    decodeBlocks_encodeBlocks b (le32 (crc32 b) ++ le32 (b.length % M32))]
  simp

theorem hexOfBytes_length (bs : List Nat) :
    (hexOfBytes bs).length = 2 * bs.length := by
  induction bs with
  | nil => rfl
  | cons b rest ih =>
    simp only [hexOfBytes, List.length_cons, ih]
    omega

theorem hexDigit_contains (n : Nat) : hexChars.contains (hexDigit n) = true := by
  by_cases h : n < 16
  · interval_cases n <;> decide
  · unfold hexDigit
    rw [List.getD_eq_default]
    · decide
    · have : hexChars.length = 16 := rfl
      omega

theorem hexOfBytes_lowerHex (bs : List Nat) :
    (hexOfBytes bs).all (fun c => hexChars.contains c) = true := by
  induction bs with
  | nil => rfl
  | cons b rest ih =>
    simp only [hexOfBytes, List.all_cons, ih, hexDigit_contains, Bool.and_self]

theorem sha256Hex_length (msg : List Nat) : (sha256Hex msg).length = 64 := by
  show (hexOfBytes (sha256Bytes msg)).length = 64
  rw [hexOfBytes_length]
  have : (sha256Bytes msg).length = 32 := by
    simp [sha256Bytes, be4]
  omega

theorem sha256Hex_lowerHex (msg : List Nat) : isLowerHexStr (sha256Hex msg) = true := by
  show (hexOfBytes (sha256Bytes msg)).all (fun c => hexChars.contains c) = true
  exact hexOfBytes_lowerHex _

theorem armorScan_nil : armorScan [] = false := rfl

theorem isArmorProtected_consumed (f : FileSrc) :
    (isArmorProtected f.consumed).1 = false := by
  simp [isArmorProtected, FileSrc.consumed, List.drop_length, armorScan_nil]

/-- Any run whose format checks, fetch, hash and signature verification
all succeed reaches the submission stage with the raw-shape entry (both
builder probes run on consumed readers and return Binary). -/
theorem runUpload_reaches_submit {κ : Type} (cfg : Config) (o : Oracles κ)
    (sig pubKeyStr : String) (st : Nat) (body : List Nat) (sha : String)
    (hs : o.formatSignature = Except.ok sig)
    (hp : o.formatPubKey = Except.ok pubKeyStr)
    (hf : o.fetch = FetchResult.response st body)
    (hh : hashGenerator cfg.artifactURL body = some sha)
    (hv : o.checkDetached (sigClassOf cfg) (keyRingOf cfg o) body cfg.sigBytes
      = Except.ok ()) :
    runUpload cfg o =
      ⟨[.fetched cfg.artifactURL, .hashed cfg.artifactURL body,
        .built (RekorJson.raw cfg.artifactURL sha cfg.sigBytes cfg.pubBytes),
        .posted (cfg.server ++ "/api/v1/add")
          (RekorJson.raw cfg.artifactURL sha cfg.sigBytes cfg.pubBytes) 180],
       submitExit (o.submit
         (RekorJson.raw cfg.artifactURL sha cfg.sigBytes cfg.pubBytes))⟩ := by
  unfold runUpload
  simp only [hs, hp, hf, hh, hv, isArmorProtected_consumed, Bool.false_eq_true,
    if_false, List.cons_append, List.nil_append]
  cases hsub : o.submit (RekorJson.raw cfg.artifactURL sha cfg.sigBytes cfg.pubBytes) with
  | timedOut => simp [submitExit]
  | netError => simp [submitExit]
  | response ok => cases ok <;> simp [submitExit]

/-! ## Claims -/

/-- Claim C1: if the detached-signature check fails, the run terminates
with `os.Exit(1)` (non-zero), and no log entry is ever constructed or
serialized and no HTTP POST is issued. -/
theorem claimC1_verify_fail_aborts {κ : Type} (cfg : Config) (o : Oracles κ)
    (sig pubKeyStr msg : String) (st : Nat) (body : List Nat) (sha : String)
    (hs : o.formatSignature = Except.ok sig)
    (hp : o.formatPubKey = Except.ok pubKeyStr)
    (hf : o.fetch = FetchResult.response st body)
    (hh : hashGenerator cfg.artifactURL body = some sha)
    (hv : o.checkDetached (sigClassOf cfg) (keyRingOf cfg o) body cfg.sigBytes
      = Except.error msg) :
    (runUpload cfg o).exit = ExitKind.exitOne ∧
    ((runUpload cfg o).events.all notBuiltOrPosted) = true := by
  unfold runUpload
  simp [hs, hp, hf, hh, hv, notBuiltOrPosted, Event.isBuilt, Event.isPosted]

/-- Claim C1 witness: a concrete run with a failing signature check
exits with code 1, building and posting nothing. -/
theorem claimC1_witness :
    (runUpload cfgPlain oVerifyFail).exit = ExitKind.exitOne ∧
    ((runUpload cfgPlain oVerifyFail).events.all notBuiltOrPosted) = true :=
  claimC1_verify_fail_aborts cfgPlain oVerifyFail "SIGTEXT" "PUBTEXT" "bad" 200
    [104, 105] (sha256Hex [104, 105]) rfl rfl rfl rfl rfl

/-- Claim C2 counterexample: with a signature classified Armored at
load time and a public key classified Binary, the built entry has the
raw shape, not the armored shape the claim requires; the builder
re-derives the classification from the consumed readers instead of
using the load-time one. -/
theorem claimC2_counterexample :
    sigClassOf cfgMixed = true ∧ pubClassOf cfgMixed = false ∧
    ((runUpload cfgMixed oOk).events.any Event.isBuiltArmored) = false ∧
    ((runUpload cfgMixed oOk).events.any Event.isBuiltRaw) = true := by
  decide

/-- Claim C2 (amended): the builder re-probes both readers after the
key-ring read and the signature check have consumed them, so both
probes return Binary and the entry always has the raw shape (with the
signature and key bytes re-read from the files), whatever the
load-time classification was. -/
theorem claimC2_always_raw_shape {κ : Type} (cfg : Config) (o : Oracles κ)
    (sig pubKeyStr : String) (st : Nat) (body : List Nat) (sha : String)
    (hs : o.formatSignature = Except.ok sig)
    (hp : o.formatPubKey = Except.ok pubKeyStr)
    (hf : o.fetch = FetchResult.response st body)
    (hh : hashGenerator cfg.artifactURL body = some sha)
    (hv : o.checkDetached (sigClassOf cfg) (keyRingOf cfg o) body cfg.sigBytes
      = Except.ok ()) :
    Event.built (RekorJson.raw cfg.artifactURL sha cfg.sigBytes cfg.pubBytes)
      ∈ (runUpload cfg o).events ∧
    ((runUpload cfg o).events.all notBuiltArmored) = true := by
  rw [runUpload_reaches_submit cfg o sig pubKeyStr st body sha hs hp hf hh hv]
  simp [notBuiltArmored, Event.isBuiltArmored]

/-- Claim C2 witness: the amended statement at the concrete
armored-signature / binary-key inputs. -/
theorem claimC2_witness :
    Event.built (RekorJson.raw cfgMixed.artifactURL (sha256Hex [104, 105])
        cfgMixed.sigBytes cfgMixed.pubBytes)
      ∈ (runUpload cfgMixed oOk).events ∧
    ((runUpload cfgMixed oOk).events.all notBuiltArmored) = true :=
  claimC2_always_raw_shape cfgMixed oOk "SIGTEXT" "PUBTEXT" 200 [104, 105]
    (sha256Hex [104, 105]) rfl rfl rfl rfl rfl

/-- Claim C5 counterexample: on an HTTP 500 response the run does not
abort — the status is never inspected, the hasher is invoked on the
error body, and the run proceeds to completion. -/
theorem claimC5_counterexample :
    o500.fetch = FetchResult.response 500 [7, 7] ∧
    ((runUpload cfgPlain o500).events.any Event.isHashed) = true ∧
    (runUpload cfgPlain o500).exit = ExitKind.success := by
  decide

/-- Claim C5 (amended): a transport error aborts the run (panic on the
nil response) before any hashing, but a non-2xx response such as HTTP
500 does not abort — the hasher is always invoked on the returned
body. -/
theorem claimC5_fetch_behaviour {κ : Type} (cfg : Config) (o1 o2 : Oracles κ)
    (s1 p1 s2 p2 : String) (st : Nat) (body : List Nat)
    (h1s : o1.formatSignature = Except.ok s1)
    (h1p : o1.formatPubKey = Except.ok p1)
    (h1f : o1.fetch = FetchResult.response st body)
    (h2s : o2.formatSignature = Except.ok s2)
    (h2p : o2.formatPubKey = Except.ok p2)
    (h2f : o2.fetch = FetchResult.transportError) :
    ((runUpload cfg o1).events.any Event.isHashed) = true ∧
    runUpload cfg o2 = ⟨[Event.fetched cfg.artifactURL], ExitKind.panicked⟩ := by
  constructor
  · rcases hG : hashGenerator cfg.artifactURL body with _ | sha
    · unfold runUpload
      simp [h1s, h1p, h1f, hG, Event.isHashed]
    · rcases hv : o1.checkDetached (sigClassOf cfg) (keyRingOf cfg o1) body cfg.sigBytes
        with msg | u
      · unfold runUpload
        simp [h1s, h1p, h1f, hG, hv, Event.isHashed]
      · cases u
        rw [runUpload_reaches_submit cfg o1 s1 p1 st body sha h1s h1p h1f hG hv]
        simp [Event.isHashed]
  · unfold runUpload
    simp [h2s, h2p, h2f]

/-- Claim C5 witness: the amended statement at a concrete HTTP 500
response and a concrete transport error. -/
theorem claimC5_witness :
    ((runUpload cfgPlain o500).events.any Event.isHashed) = true ∧
    runUpload cfgPlain oTransport
      = ⟨[Event.fetched cfgPlain.artifactURL], ExitKind.panicked⟩ :=
  claimC5_fetch_behaviour cfgPlain o500 oTransport "SIGTEXT" "PUBTEXT"
    "SIGTEXT" "PUBTEXT" 500 [7, 7] rfl rfl rfl rfl rfl rfl

/-- Claim C9: a run that reaches submission issues exactly one POST, to
`<server>/api/v1/add`, carrying the built entry under the 180-second
timeout; there is no retry, and a timed-out, transport-failed or
malformed-response submission is fatal (`log.Fatal`, non-zero exit). -/
theorem claimC9_single_post_timeout {κ : Type} (cfg : Config) (o : Oracles κ)
    (sig pubKeyStr : String) (st : Nat) (body : List Nat) (sha : String)
    (hs : o.formatSignature = Except.ok sig)
    (hp : o.formatPubKey = Except.ok pubKeyStr)
    (hf : o.fetch = FetchResult.response st body)
    (hh : hashGenerator cfg.artifactURL body = some sha)
    (hv : o.checkDetached (sigClassOf cfg) (keyRingOf cfg o) body cfg.sigBytes
      = Except.ok ()) :
    ((runUpload cfg o).events.filter Event.isPosted)
      = [Event.posted (cfg.server ++ "/api/v1/add")
          (RekorJson.raw cfg.artifactURL sha cfg.sigBytes cfg.pubBytes) 180] ∧
    Event.built (RekorJson.raw cfg.artifactURL sha cfg.sigBytes cfg.pubBytes)
      ∈ (runUpload cfg o).events ∧
    (o.submit (RekorJson.raw cfg.artifactURL sha cfg.sigBytes cfg.pubBytes)
        = SubmitResult.timedOut →
      (runUpload cfg o).exit = ExitKind.fatalLog) ∧
    (o.submit (RekorJson.raw cfg.artifactURL sha cfg.sigBytes cfg.pubBytes)
        = SubmitResult.netError →
      (runUpload cfg o).exit = ExitKind.fatalLog) ∧
    (o.submit (RekorJson.raw cfg.artifactURL sha cfg.sigBytes cfg.pubBytes)
        = SubmitResult.response false →
      (runUpload cfg o).exit = ExitKind.fatalLog) := by
  rw [runUpload_reaches_submit cfg o sig pubKeyStr st body sha hs hp hf hh hv]
  refine ⟨by simp [Event.isPosted], by simp, ?_, ?_, ?_⟩
  all_goals intro hsub
  all_goals rw [hsub]
  all_goals rfl

/-- Claim C9 witness: a concrete run whose submission times out is
fatal, having issued the single POST with the 180-second budget. -/
theorem claimC9_witness :
    ((runUpload cfgPlain oTimeout).events.filter Event.isPosted)
      = [Event.posted (cfgPlain.server ++ "/api/v1/add")
          (RekorJson.raw cfgPlain.artifactURL (sha256Hex [104, 105])
            cfgPlain.sigBytes cfgPlain.pubBytes) 180] ∧
    Event.built (RekorJson.raw cfgPlain.artifactURL (sha256Hex [104, 105])
        cfgPlain.sigBytes cfgPlain.pubBytes)
      ∈ (runUpload cfgPlain oTimeout).events ∧
    (oTimeout.submit (RekorJson.raw cfgPlain.artifactURL (sha256Hex [104, 105])
        cfgPlain.sigBytes cfgPlain.pubBytes) = SubmitResult.timedOut →
      (runUpload cfgPlain oTimeout).exit = ExitKind.fatalLog) ∧
    (oTimeout.submit (RekorJson.raw cfgPlain.artifactURL (sha256Hex [104, 105])
        cfgPlain.sigBytes cfgPlain.pubBytes) = SubmitResult.netError →
      (runUpload cfgPlain oTimeout).exit = ExitKind.fatalLog) ∧
    (oTimeout.submit (RekorJson.raw cfgPlain.artifactURL (sha256Hex [104, 105])
        cfgPlain.sigBytes cfgPlain.pubBytes) = SubmitResult.response false →
      (runUpload cfgPlain oTimeout).exit = ExitKind.fatalLog) :=
  claimC9_single_post_timeout cfgPlain oTimeout "SIGTEXT" "PUBTEXT" 200
    [104, 105] (sha256Hex [104, 105]) rfl rfl rfl rfl rfl

/-- Claim C3: the content hash is deterministic, and hashing a
gzip-compressed stream under a `.gz` name equals hashing the
uncompressed content under a plain name. -/
theorem claimC3_hash_gzip_transparent :
    (∀ (name : String) (b : List Nat), hashGenerator name b = hashGenerator name b) ∧
    (∀ b : List Nat, hashGenerator "a.gz" (gzipCompress b) = hashGenerator "a" b) := by
  refine ⟨fun _ _ => rfl, fun b => ?_⟩
  have h1 : strHasSuffix "a.gz" ".gz" = true := by decide
  have h2 : strHasSuffix "a" ".gz" = false := by decide
  simp only [hashGenerator, h1, h2, if_true, Bool.false_eq_true, if_false]
  rw [show gzipNewReader (gzipCompress b)
      = some (encodeBlocks b ++ le32 (crc32 b) ++ le32 (b.length % M32)) from rfl]
  simp only [gzipReadAll_compress]

/-- Claim C4: evaluation at the failing input — a `.gz`-named stream
with a valid gzip header but an empty (truncated) DEFLATE body.  The
decompression error is only logged and the run continues: the hasher
returns the digest of the empty decompressed prefix instead of
aborting.  (A header-level failure, by contrast, does abort: the nil
gzip reader makes `io.Copy` panic, shown by the third conjunct.) -/
theorem claimC4_truncated_gzip_digest :
    hashGenerator "a.gz" [31, 139, 8, 0, 0, 0, 0, 0, 0, 255]
      = some "e3b0c44298fc1c149afbf4c8996fb92427ae41e4649b934ca495991b7852b855" ∧
    sha256Hex []
      = "e3b0c44298fc1c149afbf4c8996fb92427ae41e4649b934ca495991b7852b855" ∧
    hashGenerator "a.gz" [1, 2, 3] = none := by
  refine ⟨by decide, by decide, by decide⟩

/-- Claim C6 counterexample: the digest the claim requires for
`"hello\n"` (63 hex characters, truncated) differs from the digest the
pipeline computes. -/
theorem claimC6_counterexample :
    hashGenerator "http://e/a" [104, 101, 108, 108, 111, 10]
      ≠ some "5891b5b522d5df086d0ff0b110fbd9d21bb4fc7163af34d08286a2e846f6be0" := by
  decide

/-- Claim C6 (amended): for a source name without a gzip suffix the
digest is the lowercase hex SHA-256 of the bytes, and for
`"hello\n"` it equals
`5891b5b522d5df086d0ff0b110fbd9d21bb4fc7163af34d08286a2e846f6be03`
(the claim's 63-character digest is missing the final `3`). -/
theorem claimC6_plain_sha256 (name : String) (b : List Nat)
    (h : strHasSuffix name ".gz" = false) :
    hashGenerator name b = some (sha256Hex b) ∧
    sha256Hex [104, 101, 108, 108, 111, 10]
      = "5891b5b522d5df086d0ff0b110fbd9d21bb4fc7163af34d08286a2e846f6be03" := by
  constructor
  · simp [hashGenerator, h]
  · decide

/-- Claim C6 witness: the amended statement at the concrete
`"hello\n"` input. -/
theorem claimC6_witness :
    hashGenerator "http://e/a" [104, 101, 108, 108, 111, 10]
      = some (sha256Hex [104, 101, 108, 108, 111, 10]) ∧
    sha256Hex [104, 101, 108, 108, 111, 10]
      = "5891b5b522d5df086d0ff0b110fbd9d21bb4fc7163af34d08286a2e846f6be03" :=
  claimC6_plain_sha256 "http://e/a" [104, 101, 108, 108, 111, 10] rfl

/-- Claim C7: classification round-trips — the armored encoding of any
payload is classified Armored, and any bytes with no armor begin-marker
line are classified Binary. -/
theorem claimC7_classify_round_trip (x y : List Nat) (h : armorScan y = false) :
    (isArmorProtected ⟨armorEncode x, 0⟩).1 = true ∧
    (isArmorProtected ⟨y, 0⟩).1 = false := by
  constructor
  · show armorScan (armorEncode x) = true
    rw [armorScan]
    simp only [armorScanGo]
    have ht : (armorEncode x).take 11 = armorBeginMarker := by
      rw [armorEncode, List.take_append_of_le_length (by decide)]
      decide
    rw [ht]
    simp
  · exact h

/-- Claim C7 witness: the round trip at a concrete payload and a
concrete binary (marker-free) byte sequence. -/
theorem claimC7_witness :
    (isArmorProtected ⟨armorEncode [1, 2, 3], 0⟩).1 = true ∧
    (isArmorProtected ⟨[0], 0⟩).1 = false :=
  claimC7_classify_round_trip [1, 2, 3] [0] (by decide)

/-- Claim C8: the classification probe does not irrecoverably consume
its source — after `isArmorProtected` returns, the read position is
reset to the start and the content is unchanged. -/
theorem claimC8_probe_resets (f : FileSrc) :
    (isArmorProtected f).2.pos = 0 ∧ (isArmorProtected f).2.content = f.content :=
  ⟨rfl, rfl⟩

/-- Claim C10: whenever the hasher returns a digest, it is a string of
exactly 64 lowercase hexadecimal characters, on every input name and
byte sequence and on both the plain and the gzip path. -/
theorem claimC10_digest_shape (name : String) (bytes : List Nat) (s : String)
    (h : hashGenerator name bytes = some s) :
    s.length = 64 ∧ isLowerHexStr s = true := by
  unfold hashGenerator at h
  split at h
  · split at h
    · simp at h
    · obtain rfl := Option.some.inj h
      exact ⟨sha256Hex_length _, sha256Hex_lowerHex _⟩
  · obtain rfl := Option.some.inj h
    exact ⟨sha256Hex_length _, sha256Hex_lowerHex _⟩

/-- Claim C10 witness: the digest of the empty input is 64 lowercase
hex characters. -/
theorem claimC10_witness :
    (sha256Hex []).length = 64 ∧ isLowerHexStr (sha256Hex []) = true :=
  claimC10_digest_shape "x" [] (sha256Hex []) rfl
